import Mathlib

/-!
Verification of the INR100 load-testing harness.

This file gives a shallow embedding in Lean of the computational core of the
repository's load-testing scripts:

* `scripts/load-testing.js` — `LoadTester`: the HTTP request executor
  (`makeRequest`), the per-endpoint batch analysis (`testEndpoint`), the
  running summary accumulator, and the percentile computation
  (`percentile`, `analyzePerformance`);
* `scripts/database-load-testing.js` — `DatabaseLoadTester.executeQuery`;
* `scripts/load-test-runner.js` — `LoadTestRunner.calculateStabilityScore`
  and the result assembly of `runSpikeTest`.

JavaScript numbers are modelled as exact rationals extended with the three
IEEE special values that the scripts can actually produce (`Infinity`,
`-Infinity`, `NaN`), so that unguarded divisions and empty-list reductions
are represented faithfully rather than idealised away.  Promises are
modelled by an explicit resolved/rejected sum type; the asynchronous
request phase of `testEndpoint` is modelled by the order in which its
synchronous promise-creation loop initiates requests, together with traces
assigning completion ticks that can only lie after that loop (single-
threaded event-loop semantics).
-/

namespace INR100

/-- A JavaScript number as produced by the scripts: an exact rational, or
one of the IEEE special values `Infinity`, `-Infinity`, `NaN`. -/
inductive JsNum where
  | fin (q : ℚ)
  | posInf
  | negInf
  | nan
deriving DecidableEq

namespace JsNum

/-- JavaScript division on `JsNum` (IEEE 754 semantics; the sign of zero is
not modelled, which is exact on every division the scripts perform since
their operands are counts and non-negative elapsed times). -/
def div : JsNum → JsNum → JsNum
  | nan, _ => nan
  | fin _, nan => nan
  | posInf, nan => nan
  | negInf, nan => nan
  | fin a, fin b =>
    if b = 0 then (if a = 0 then nan else if 0 < a then posInf else negInf)
    else fin (a / b)
  | fin _, posInf => fin 0
  | fin _, negInf => fin 0
  | posInf, fin b => if b < 0 then negInf else posInf
  | negInf, fin b => if b < 0 then posInf else negInf
  | posInf, posInf => nan
  | posInf, negInf => nan
  | negInf, posInf => nan
  | negInf, negInf => nan

/-- JavaScript multiplication on `JsNum`. -/
def mul : JsNum → JsNum → JsNum
  | nan, _ => nan
  | fin _, nan => nan
  | posInf, nan => nan
  | negInf, nan => nan
  | fin a, fin b => fin (a * b)
  | fin a, posInf => if a = 0 then nan else if 0 < a then posInf else negInf
  | fin a, negInf => if a = 0 then nan else if 0 < a then negInf else posInf
  | posInf, fin b => if b = 0 then nan else if 0 < b then posInf else negInf
  | negInf, fin b => if b = 0 then nan else if 0 < b then negInf else posInf
  | posInf, posInf => posInf
  | posInf, negInf => negInf
  | negInf, posInf => negInf
  | negInf, negInf => posInf

/-- JavaScript subtraction on `JsNum`. -/
def sub : JsNum → JsNum → JsNum
  | nan, _ => nan
  | fin _, nan => nan
  | posInf, nan => nan
  | negInf, nan => nan
  | fin a, fin b => fin (a - b)
  | fin _, posInf => negInf
  | fin _, negInf => posInf
  | posInf, fin _ => posInf
  | negInf, fin _ => negInf
  | posInf, posInf => nan
  | posInf, negInf => posInf
  | negInf, posInf => negInf
  | negInf, negInf => nan

/-- The JavaScript comparison `x < y` on `JsNum`; any comparison involving
`NaN` is false. -/
def lt : JsNum → JsNum → Bool
  | nan, _ => false
  | fin _, nan => false
  | posInf, nan => false
  | negInf, nan => false
  | fin a, fin b => decide (a < b)
  | fin _, posInf => true
  | fin _, negInf => false
  | posInf, _ => false
  | negInf, negInf => false
  | negInf, _ => true

end JsNum

/-- A settled JavaScript promise: either resolved with a value or rejected
(carrying a thrown error whose payload we do not model). -/
inductive JsPromise (α : Type) where
  | resolved (value : α)
  | rejected
deriving DecidableEq

/-- The environment events a single HTTP request of `makeRequest` can see:
the response `end` callback fires with a status code and body at elapsed
time `elapsedMs`, or the request `error` callback fires with a message at
elapsed time `elapsedMs`.  A network-level timeout surfaces as an `error`
event (the script installs no timer of its own). -/
inductive NetEvent where
  | response (statusCode : Nat) (body : String) (elapsedMs : ℚ)
  | netError (message : String) (elapsedMs : ℚ)
deriving DecidableEq

/-- Wall-clock time elapsed when the event fired (the difference of the two
readings of performance.now surrounding the request). -/
def NetEvent.elapsedMs : NetEvent → ℚ
  | .response _ _ t => t
  | .netError _ t => t

/-- The value `makeRequest` resolves with (load-testing.js:62-68 for the
response path, 76-83 for the error path).  The response headers are not
modelled. -/
structure RequestResult where
  statusCode : Nat
  data : String
  responseTime : ℚ
  success : Bool
  error : Option String
deriving DecidableEq

/-- `LoadTester.makeRequest` (load-testing.js:34-92).  `urlParseOk` is the
outcome of the `new URL(url)` call at line 37: when it is `false` the
constructor throws a TypeError inside the promise executor, which settles
the returned promise as rejected before any request is issued.  When the
URL parses, the request is issued and the promise resolves on either the
`end` event (status code, body, `success = statusCode < 400`) or the
`error` event (status code 0, `success = false`, the error message); both
record the elapsed time measured from the start of the call. -/
def makeRequest (urlParseOk : Bool) (ev : NetEvent) : JsPromise RequestResult :=
  match urlParseOk with
  | false => .rejected
  | true =>
    match ev with
    | .response code body t =>
      .resolved { statusCode := code, data := body, responseTime := t,
                  success := decide (code < 400), error := none }
    | .netError msg t =>
      .resolved { statusCode := 0, data := "", responseTime := t,
                  success := false, error := some msg }

/-- The environment events one `executeQuery` call can see: the query
returns `rows` rows at elapsed time `elapsedMs`, or anything inside the
`try` block throws (pool acquisition timeout, SQL error, an uninitialised
pool) with a message at elapsed time `elapsedMs`. -/
inductive DbEvent where
  | ok (rows : Nat) (elapsedMs : ℚ)
  | dbError (message : String) (elapsedMs : ℚ)
deriving DecidableEq

/-- Wall-clock time elapsed when the query settled. -/
def DbEvent.elapsedMs : DbEvent → ℚ
  | .ok _ t => t
  | .dbError _ t => t

/-- Whether the database event is a successful query completion. -/
def DbEvent.isOk : DbEvent → Bool
  | .ok _ _ => true
  | .dbError _ _ => false

/-- The value `executeQuery` returns (database-load-testing.js:106-112 for
the success path, 117-123 for the catch path).  The row data itself is not
modelled, only the row count. -/
structure QueryResult where
  success : Bool
  queryTime : ℚ
  rowsAffected : Nat
  error : Option String
deriving DecidableEq

/-- `DatabaseLoadTester.executeQuery` (database-load-testing.js:95-129).
The whole body sits in a `try`/`catch`/`finally`: every throw inside the
`try` block — including pool acquisition failures — is caught and turned
into a failed result with the elapsed time measured up to the failure, so
the returned promise always resolves. -/
def executeQuery (ev : DbEvent) : JsPromise QueryResult :=
  match ev with
  | .ok rows t =>
    .resolved { success := true, queryTime := t, rowsAffected := rows, error := none }
  | .dbError msg t =>
    .resolved { success := false, queryTime := t, rowsAffected := 0, error := some msg }

/-- The `Math.max(...arr)` spread call of load-testing.js:129: the maximum
of a list of finite numbers, `-Infinity` on the empty list. -/
def listMaxQ : List ℚ → JsNum
  | [] => .negInf
  | x :: xs => .fin (xs.foldl max x)

/-- The `Math.min(...arr)` spread call of load-testing.js:130: the minimum
of a list of finite numbers, `Infinity` on the empty list. -/
def listMinQ : List ℚ → JsNum
  | [] => .posInf
  | x :: xs => .fin (xs.foldl min x)

/-- The per-endpoint batch result assembled by `testEndpoint`
(load-testing.js:134-148).  The status-code distribution field is not
modelled (no claim concerns it). -/
structure EndpointResult where
  url : String
  concurrentUsers : Nat
  requestsPerUser : Nat
  totalRequests : Nat
  successfulRequests : Nat
  failedRequests : Nat
  totalTime : ℚ
  avgResponseTime : JsNum
  maxResponseTime : JsNum
  minResponseTime : JsNum
  requestsPerSecond : JsNum
  errorRate : JsNum
deriving DecidableEq

/-- The analysis phase of `LoadTester.testEndpoint` (load-testing.js:124-148),
applied to the list of settled request results of one batch and the
measured wall-clock `totalTime`:
`successful`/`failed` are the filters of line 124-125, `avgResponseTime`
the reduce-divide of line 128 (so `NaN` on an empty batch),
`maxResponseTime`/`minResponseTime` the spreads of lines 129-130,
`requestsPerSecond` the unguarded division of line 131 (so `Infinity` when
`totalTime = 0` and the batch is non-empty), and `errorRate` the unguarded
`(failed.length / results.length) * 100` of line 132 (so `NaN` on an empty
batch). -/
def testEndpoint (url : String) (concurrentUsers requestsPerUser : Nat)
    (results : List RequestResult) (totalTime : ℚ) : EndpointResult :=
  let successful := results.filter (fun r => r.success)
  let failed := results.filter (fun r => !r.success)
  let responseTimes := results.map (fun r => r.responseTime)
  { url := url
    concurrentUsers := concurrentUsers
    requestsPerUser := requestsPerUser
    totalRequests := results.length
    successfulRequests := successful.length
    failedRequests := failed.length
    totalTime := totalTime
    avgResponseTime := JsNum.div (.fin responseTimes.sum) (.fin responseTimes.length)
    maxResponseTime := listMaxQ responseTimes
    minResponseTime := listMinQ responseTimes
    requestsPerSecond := JsNum.div (.fin results.length) (.fin (totalTime / 1000))
    errorRate := JsNum.mul (JsNum.div (.fin failed.length) (.fin results.length)) (.fin 100) }

/-- The running summary held in `this.results.summary` (load-testing.js:17-27),
restricted to the counters the claims concern. -/
structure LoadTesterSummary where
  totalRequests : Nat
  successfulRequests : Nat
  failedRequests : Nat
  totalTime : ℚ
deriving DecidableEq

/-- The summary as initialised by the `LoadTester` constructor. -/
def initialSummary : LoadTesterSummary :=
  { totalRequests := 0, successfulRequests := 0, failedRequests := 0, totalTime := 0 }

/-- The summary update performed at the end of each `testEndpoint` call
(load-testing.js:155-158): the three counters are incremented by the batch
counts and `totalTime` is the running maximum of batch times. -/
def updateSummary (s : LoadTesterSummary) (results : List RequestResult)
    (totalTime : ℚ) : LoadTesterSummary :=
  { totalRequests := s.totalRequests + results.length
    successfulRequests := s.successfulRequests + (results.filter (fun r => r.success)).length
    failedRequests := s.failedRequests + (results.filter (fun r => !r.success)).length
    totalTime := max s.totalTime totalTime }

/-- The summary reached after a sequence of `testEndpoint` calls on one
`LoadTester` instance, each batch given by its settled results and wall
time. -/
def runSummary (batches : List (List RequestResult × ℚ)) : LoadTesterSummary :=
  batches.foldl (fun s b => updateSummary s b.1 b.2) initialSummary

/-- `LoadTester.percentile` (load-testing.js:272-275):
`sortedArray[Math.max(0, Math.ceil((p / 100) * sortedArray.length) - 1)]`.
An out-of-range access (only possible for `p > 100`) yields `undefined` in
JavaScript and is modelled by the default value `0`. -/
def percentile (sortedArray : List ℚ) (p : ℚ) : ℚ :=
  let index : Int := ⌈p / 100 * (sortedArray.length : ℚ)⌉ - 1
  sortedArray.getD (max 0 index).toNat 0

/-- The ascending numeric sort `responseTimes.sort((a, b) => a - b)` of
load-testing.js:257. -/
def sortAscending (l : List ℚ) : List ℚ :=
  List.mergeSort l (fun a b => decide (a ≤ b))

/-- The percentile block of `LoadTester.analyzePerformance`
(load-testing.js:255-263); the remaining fields of that method (process
memory and uptime) are environment reads outside the claims. -/
structure PerformancePercentiles where
  p50 : ℚ
  p90 : ℚ
  p95 : ℚ
  p99 : ℚ
deriving DecidableEq

/-- `LoadTester.analyzePerformance` (load-testing.js:255-263): sort all
recorded response times ascending, then read the four percentiles. -/
def analyzePerformance (detailed : List RequestResult) : PerformancePercentiles :=
  let sortedTimes := sortAscending (detailed.map (fun r => r.responseTime))
  { p50 := percentile sortedTimes 50
    p90 := percentile sortedTimes 90
    p95 := percentile sortedTimes 95
    p99 := percentile sortedTimes 99 }

/-- `LoadTestRunner.calculateStabilityScore` (load-test-runner.js:224-242),
reading the endurance result's `errorRate`, `avgResponseTime`,
`maxResponseTime` and `minResponseTime` fields; each JavaScript comparison
`x > c` is `JsNum.lt (fin c) x`, false on `NaN`. -/
def calculateStabilityScore (result : EndpointResult) : ℚ :=
  let score : ℚ := 100
  let score := if JsNum.lt (.fin 1) result.errorRate then score - 20
    else if JsNum.lt (.fin (1/10)) result.errorRate then score - 10
    else score
  let score := if JsNum.lt (.fin 1000) result.avgResponseTime then score - 30
    else if JsNum.lt (.fin 500) result.avgResponseTime then score - 15
    else if JsNum.lt (.fin 200) result.avgResponseTime then score - 5
    else score
  let variance := JsNum.sub result.maxResponseTime result.minResponseTime
  let score := if JsNum.lt (.fin 3000) variance then score - 20
    else if JsNum.lt (.fin 1000) variance then score - 10
    else score
  max 0 score

/-- The stability verdict of `runEnduranceTest` (load-test-runner.js:218):
the system is reported stable exactly when the score exceeds 80. -/
def systemStable (stabilityScore : ℚ) : Bool :=
  decide (80 < stabilityScore)

/-- The stability score as the specification states it (section 4.5): start
at 100, deduct fixed penalties for the error-rate, latency and variance
thresholds, floor at 0.  Stated from the specification's words, for
comparison with `calculateStabilityScore`. -/
def specStabilityScore (errorRate avg variance : ℚ) : ℚ :=
  max 0 (100
    - (if 1 < errorRate then 20 else if 1/10 < errorRate then 10 else 0)
    - (if 1000 < avg then 30 else if 500 < avg then 15 else if 200 < avg then 5 else 0)
    - (if 3000 < variance then 20 else if 1000 < variance then 10 else 0))

/-- An endpoint result carrying the given finite statistics in the four
fields that `calculateStabilityScore` and `runSpikeTest` read; the
remaining fields are irrelevant to those computations. -/
def mkStatsResult (errorRate avg maxTime minTime : ℚ) : EndpointResult :=
  { url := "", concurrentUsers := 0, requestsPerUser := 0, totalRequests := 0,
    successfulRequests := 0, failedRequests := 0, totalTime := 0,
    avgResponseTime := .fin avg, maxResponseTime := .fin maxTime,
    minResponseTime := .fin minTime, requestsPerSecond := .fin 0,
    errorRate := .fin errorRate }

/-- The result object assembled by `LoadTestRunner.runSpikeTest`
(load-test-runner.js:172-180), restricted to the derived fields. -/
structure SpikeTestResults where
  spikeMultiplier : JsNum
  degradationRatio : JsNum
  passed : Bool
deriving DecidableEq

/-- The derived-field assembly of `LoadTestRunner.runSpikeTest`
(load-test-runner.js:150-190): `baseUsers`/`spikeUsers` come from the
spike-test configuration (10 and 200 in config/load-testing-config.js),
`baselineResult` and `spikeResult` are the two `testEndpoint` batches.
`spikeMultiplier = spikeUsers / baseUsers` (line 176),
`degradationRatio = spike avg / baseline avg` (line 177), and
`passed = spike errorRate < 5 && spike avg < baseline avg * 3`
(line 179). -/
def runSpikeTest (baseUsers spikeUsers : ℚ)
    (baselineResult spikeResult : EndpointResult) : SpikeTestResults :=
  { spikeMultiplier := JsNum.div (.fin spikeUsers) (.fin baseUsers)
    degradationRatio := JsNum.div spikeResult.avgResponseTime baselineResult.avgResponseTime
    passed := JsNum.lt spikeResult.errorRate (.fin 5) &&
      JsNum.lt spikeResult.avgResponseTime
        (JsNum.mul baselineResult.avgResponseTime (.fin 3)) }

/-- The promise-creation order of `LoadTester.testEndpoint`
(load-testing.js:103-117): for `user = 0..C-1` and `request = 0..M-1` the
nested loops push one promise whose async executor immediately invokes
`makeRequest`, so each HTTP request is initiated synchronously at push
time.  The list holds the `(user, request)` pairs in initiation order. -/
def requestInitiations (concurrentUsers requestsPerUser : Nat) : List (Nat × Nat) :=
  (List.range concurrentUsers).flatMap
    (fun user => (List.range requestsPerUser).map (fun request => (user, request)))

/-- The tick — position in the synchronous creation loop — at which request
`(user, k)` is initiated. -/
def startTick (concurrentUsers requestsPerUser user k : Nat) : Nat :=
  (requestInitiations concurrentUsers requestsPerUser).indexOf (user, k)

/-- The number of initiations the synchronous loop performs.  Node.js runs
the loop to completion before any I/O callback, so every request-completion
tick lies at or after this value. -/
def syncLoopTicks (concurrentUsers requestsPerUser : Nat) : Nat :=
  (requestInitiations concurrentUsers requestsPerUser).length

/-- An event-loop trace for one `testEndpoint` batch: an assignment of
completion ticks to the requests, constrained only by the single-threaded
event-loop fact that no completion callback runs before the synchronous
creation loop has finished. -/
structure EventLoopTrace (concurrentUsers requestsPerUser : Nat) where
  completionTick : Nat → Nat → Nat
  completion_after_loop :
    ∀ user k, syncLoopTicks concurrentUsers requestsPerUser ≤ completionTick user k

/-- The trace in which every request completes at the earliest tick the
event loop permits, immediately after the creation loop. -/
def promptTrace (concurrentUsers requestsPerUser : Nat) :
    EventLoopTrace concurrentUsers requestsPerUser :=
  { completionTick := fun _ _ => syncLoopTicks concurrentUsers requestsPerUser
    completion_after_loop := fun _ _ => Nat.le_refl _ }

/-- Unfolding equation for `percentile`. -/
lemma percentile_def (l : List ℚ) (p : ℚ) :
    percentile l p = l.getD (max 0 (⌈p / 100 * (l.length : ℚ)⌉ - 1)).toNat 0 := rfl

/-- The percentile index as the specification states it: the ceil index
clamped to the range `[0, n-1]`. -/
def specPercentileIndex (n : Nat) (p : ℚ) : Nat :=
  min (n - 1) (max 0 (⌈p / 100 * (n : ℚ)⌉ - 1)).toNat

/-- For a percentile rank at most 100 and a non-empty list, the code's
lower-clamped index coincides with the specification's two-sided clamp:
the upper clamp is automatically satisfied. -/
lemma index_eq_specIndex (n : Nat) (p : ℚ) (_hn : n ≠ 0) (hp : p ≤ 100) :
    (max 0 (⌈p / 100 * (n : ℚ)⌉ - 1)).toNat = specPercentileIndex n p := by
  unfold specPercentileIndex
  have hceil : ⌈p / 100 * (n : ℚ)⌉ ≤ (n : ℤ) := by
    apply Int.ceil_le.mpr
    push_cast
    have hn0 : (0 : ℚ) ≤ (n : ℚ) := Nat.cast_nonneg n
    have hdiv : p / 100 ≤ 1 := (div_le_one (by norm_num : (0:ℚ) < 100)).mpr hp
    calc p / 100 * (n : ℚ) ≤ 1 * (n : ℚ) := mul_le_mul_of_nonneg_right hdiv hn0
    _ = (n : ℚ) := one_mul _
  have h2 : (max 0 (⌈p / 100 * (n : ℚ)⌉ - 1)).toNat ≤ n - 1 := by omega
  exact (min_eq_right h2).symm

/-- The 100 uniformly spread latencies of the specification's Scenario 2:
1 ms, 2 ms, …, 100 ms. -/
def scenario2Latencies : List ℚ :=
  (List.range 100).map (fun (i : Nat) => (i : ℚ) + 1)

/-- The outcome batch of the specification's Scenario 2: 100 successful
requests with latencies 1..100 ms. -/
def scenario2Outcomes : List RequestResult :=
  (List.range 100).map (fun (i : Nat) =>
    { statusCode := 200, data := "", responseTime := ((i : ℚ) + 1),
      success := true, error := none })

lemma scenario2_sorted :
    List.Pairwise (fun a b : ℚ => decide (a ≤ b) = true) scenario2Latencies := by
  unfold scenario2Latencies
  refine List.Pairwise.map _ ?_ (List.pairwise_lt_range 100)
  intro a b hab
  simp only [decide_eq_true_eq]
  have h : (a : ℚ) < (b : ℚ) := by exact_mod_cast hab
  linarith

lemma scenario2_sortAscending : sortAscending scenario2Latencies = scenario2Latencies :=
  List.mergeSort_of_sorted scenario2_sorted

lemma scenario2_map :
    scenario2Outcomes.map (fun r => r.responseTime) = scenario2Latencies := by
  simp [scenario2Outcomes, scenario2Latencies, List.map_map]

lemma scenario2_length : ((scenario2Latencies.length : Nat) : ℚ) = 100 := by
  simp only [scenario2Latencies, List.length_map, List.length_range]
  norm_num

lemma scenario2_getD_49 : scenario2Latencies.getD 49 0 = 50 := by
  show ((List.range 100).map (fun (i : Nat) => (i : ℚ) + 1)).getD 49 0 = 50
  rw [List.getD_eq_getElem?_getD, List.getElem?_map, List.getElem?_range] <;> norm_num

lemma scenario2_getD_98 : scenario2Latencies.getD 98 0 = 99 := by
  show ((List.range 100).map (fun (i : Nat) => (i : ℚ) + 1)).getD 98 0 = 99
  rw [List.getD_eq_getElem?_getD, List.getElem?_map, List.getElem?_range] <;> norm_num

lemma scenario2_p50 : percentile scenario2Latencies 50 = 50 := by
  rw [percentile_def, scenario2_length]
  have hc : (⌈(50:ℚ) / 100 * 100⌉ : ℤ) = 50 := by norm_num
  have h2 : (max 0 (⌈(50:ℚ) / 100 * 100⌉ - 1)).toNat = 49 := by rw [hc]; decide
  rw [h2, scenario2_getD_49]

lemma scenario2_p99 : percentile scenario2Latencies 99 = 99 := by
  rw [percentile_def, scenario2_length]
  have hc : (⌈(99:ℚ) / 100 * 100⌉ : ℤ) = 99 := by norm_num
  have h2 : (max 0 (⌈(99:ℚ) / 100 * 100⌉ - 1)).toNat = 98 := by rw [hc]; decide
  rw [h2, scenario2_getD_98]

/-- Splitting a list by a boolean predicate partitions its length. -/
lemma length_filter_split {α : Type} (l : List α) (p : α → Bool) :
    (l.filter p).length + (l.filter (fun a => !p a)).length = l.length := by
  induction l with
  | nil => simp
  | cons a t ih =>
    by_cases h : p a = true
    · simp [List.filter, h, ih]
      omega
    · have h' : p a = false := by
        revert h
        cases p a <;> simp
      simp [List.filter, h', ih]
      omega

/-- The summary invariant is preserved by one `updateSummary` step. -/
lemma updateSummary_invariant (s : LoadTesterSummary)
    (h : s.successfulRequests + s.failedRequests = s.totalRequests)
    (results : List RequestResult) (t : ℚ) :
    (updateSummary s results t).successfulRequests
        + (updateSummary s results t).failedRequests
      = (updateSummary s results t).totalRequests := by
  unfold updateSummary
  have hsplit := length_filter_split results (fun r => r.success)
  simp only
  omega

lemma foldl_summary_invariant (batches : List (List RequestResult × ℚ)) :
    ∀ s : LoadTesterSummary,
      s.successfulRequests + s.failedRequests = s.totalRequests →
      (batches.foldl (fun s b => updateSummary s b.1 b.2) s).successfulRequests
          + (batches.foldl (fun s b => updateSummary s b.1 b.2) s).failedRequests
        = (batches.foldl (fun s b => updateSummary s b.1 b.2) s).totalRequests := by
  induction batches with
  | nil => intro s hs; simpa using hs
  | cons b t ih =>
    intro s hs
    exact ih _ (updateSummary_invariant s hs b.1 b.2)

/-- For a percentile rank at most 100, the ceil index never exceeds the
list length. -/
lemma ceil_index_le (n : Nat) (p : ℚ) (hp : p ≤ 100) :
    ⌈p / 100 * (n : ℚ)⌉ ≤ (n : ℤ) := by
  apply Int.ceil_le.mpr
  push_cast
  have hn0 : (0 : ℚ) ≤ (n : ℚ) := Nat.cast_nonneg n
  have hdiv : p / 100 ≤ 1 := (div_le_one (by norm_num : (0:ℚ) < 100)).mpr hp
  calc p / 100 * (n : ℚ) ≤ 1 * (n : ℚ) := mul_le_mul_of_nonneg_right hdiv hn0
  _ = (n : ℚ) := one_mul _

/-- On a sorted non-empty list the percentile computation is monotone in
the rank, for ranks up to 100. -/
lemma percentile_mono (s : List ℚ) (hs : s.Sorted (· ≤ ·)) (hne : s ≠ [])
    (p q : ℚ) (hpq : p ≤ q) (hq : q ≤ 100) : percentile s p ≤ percentile s q := by
  have hn : 0 < s.length := List.length_pos.mpr hne
  have hceil : ⌈q / 100 * (s.length : ℚ)⌉ ≤ (s.length : ℤ) := ceil_index_le s.length q hq
  have hle : ⌈p / 100 * (s.length : ℚ)⌉ ≤ ⌈q / 100 * (s.length : ℚ)⌉ := by
    apply Int.ceil_le_ceil
    have h : p / 100 ≤ q / 100 := by linarith
    exact mul_le_mul_of_nonneg_right h (Nat.cast_nonneg _)
  have hij : (max 0 (⌈p / 100 * (s.length : ℚ)⌉ - 1)).toNat
      ≤ (max 0 (⌈q / 100 * (s.length : ℚ)⌉ - 1)).toNat := by
    apply Int.toNat_le_toNat
    exact max_le_max le_rfl (by omega)
  have hjlt : (max 0 (⌈q / 100 * (s.length : ℚ)⌉ - 1)).toNat < s.length := by
    have hub : (max 0 (⌈q / 100 * (s.length : ℚ)⌉ - 1)) ≤ (s.length : ℤ) - 1 :=
      max_le (by omega) (by omega)
    omega
  have hilt : (max 0 (⌈p / 100 * (s.length : ℚ)⌉ - 1)).toNat < s.length :=
    lt_of_le_of_lt hij hjlt
  rw [percentile_def, percentile_def]
  rw [List.getD_eq_getElem?_getD, List.getD_eq_getElem?_getD,
    List.getElem?_eq_getElem hilt, List.getElem?_eq_getElem hjlt]
  simp only [Option.getD_some]
  have := hs.rel_get_of_le
    (a := ⟨(max 0 (⌈p / 100 * (s.length : ℚ)⌉ - 1)).toNat, hilt⟩)
    (b := ⟨(max 0 (⌈q / 100 * (s.length : ℚ)⌉ - 1)).toNat, hjlt⟩)
    (by exact hij)
  simpa [List.get_eq_getElem] using this

/-- Every member of `x :: xs` is bounded by the left fold of `max`
(the `Math.max` spread). -/
lemma mem_le_foldl_max (x : ℚ) (xs : List ℚ) : ∀ y ∈ x :: xs, y ≤ xs.foldl max x := by
  induction xs generalizing x with
  | nil =>
    intro y hy
    rw [List.mem_singleton] at hy
    simp [hy]
  | cons z t ih =>
    intro y hy
    rw [List.foldl_cons]
    rcases List.mem_cons.mp hy with rfl | hy'
    · exact le_trans (le_max_left y z) (ih (max y z) (max y z) (List.mem_cons_self _ _))
    · rcases List.mem_cons.mp hy' with rfl | hmem
      · exact le_trans (le_max_right x y) (ih (max x y) (max x y) (List.mem_cons_self _ _))
      · exact ih (max x z) y (List.mem_cons_of_mem _ hmem)

/-- The left fold of `min` (the `Math.min` spread) bounds every member of
`x :: xs` from below. -/
lemma foldl_min_le_mem (x : ℚ) (xs : List ℚ) : ∀ y ∈ x :: xs, xs.foldl min x ≤ y := by
  induction xs generalizing x with
  | nil =>
    intro y hy
    rw [List.mem_singleton] at hy
    simp [hy]
  | cons z t ih =>
    intro y hy
    rw [List.foldl_cons]
    rcases List.mem_cons.mp hy with rfl | hy'
    · exact le_trans (ih (min y z) (min y z) (List.mem_cons_self _ _)) (min_le_left y z)
    · rcases List.mem_cons.mp hy' with rfl | hmem
      · exact le_trans (ih (min x y) (min x y) (List.mem_cons_self _ _)) (min_le_right x y)
      · exact ih (min x z) y (List.mem_cons_of_mem _ hmem)

/-- On a non-empty list, the mean lies between the fold-min and the
fold-max. -/
lemma min_le_avg_le_max (x : ℚ) (xs : List ℚ) :
    xs.foldl min x ≤ (x :: xs).sum / ((x :: xs).length : ℚ) ∧
    (x :: xs).sum / ((x :: xs).length : ℚ) ≤ xs.foldl max x := by
  have hlen : (0 : ℚ) < ((x :: xs).length : ℚ) := by
    have : 0 < (x :: xs).length := List.length_pos.mpr (by simp)
    exact_mod_cast this
  constructor
  · rw [le_div_iff₀ hlen]
    have h := List.card_nsmul_le_sum (x :: xs) (xs.foldl min x) (foldl_min_le_mem x xs)
    rw [nsmul_eq_mul] at h
    linarith [h]
  · rw [div_le_iff₀ hlen]
    have h := List.sum_le_card_nsmul (x :: xs) (xs.foldl max x) (mem_le_foldl_max x xs)
    rw [nsmul_eq_mul] at h
    linarith [h]

/-- The ascending sort used by the analysis is sorted. -/
lemma sortAscending_sorted (l : List ℚ) : (sortAscending l).Sorted (· ≤ ·) := by
  have h : (List.mergeSort l (fun a b : ℚ => decide (a ≤ b))).Pairwise
      (fun a b : ℚ => decide (a ≤ b) = true) := by
    apply List.sorted_mergeSort
    · intro a b c hab hbc
      simp only [decide_eq_true_eq] at *
      exact le_trans hab hbc
    · intro a b
      simp only [Bool.or_eq_true, decide_eq_true_eq]
      exact le_total a b
  exact h.imp (fun hab => of_decide_eq_true hab)

/-- A sample successful request result used as a concrete batch element. -/
def sampleResult : RequestResult :=
  { statusCode := 200, data := "", responseTime := 5, success := true, error := none }

/-- C1 (counterexample): the claim quantifies over every URL input, but on
a URL that `new URL` cannot parse, `makeRequest` does not resolve to a
failed outcome — the TypeError thrown inside the promise executor rejects
the promise, whatever the network would have answered. -/
theorem c1_invalid_url_rejects :
    makeRequest false (NetEvent.response 200 "ok" 5) = JsPromise.rejected := rfl

/-- C1 (amended): for every URL input on which `new URL` succeeds, the
request executors never reject: `makeRequest` resolves on every event with
the latency measured up to that event, with `success` true exactly when
the status code is below 400 on a response and false on a network error;
`executeQuery` never rejects on any event, records the elapsed time of
the event, and succeeds exactly on a successful query completion. -/
theorem c1_executors_capture_failures :
    (∀ ev : NetEvent, makeRequest true ev ≠ JsPromise.rejected) ∧
    (∀ (ev : NetEvent) (r : RequestResult),
        makeRequest true ev = JsPromise.resolved r → r.responseTime = ev.elapsedMs) ∧
    (∀ (code : Nat) (body : String) (t : ℚ) (r : RequestResult),
        makeRequest true (NetEvent.response code body t) = JsPromise.resolved r →
        (r.success = true ↔ code < 400)) ∧
    (∀ (msg : String) (t : ℚ) (r : RequestResult),
        makeRequest true (NetEvent.netError msg t) = JsPromise.resolved r →
        r.success = false) ∧
    (∀ ev : DbEvent, executeQuery ev ≠ JsPromise.rejected) ∧
    (∀ (ev : DbEvent) (q : QueryResult),
        executeQuery ev = JsPromise.resolved q →
        q.queryTime = ev.elapsedMs ∧ (q.success = true ↔ ev.isOk = true)) := by
  refine ⟨?_, ?_, ?_, ?_, ?_, ?_⟩
  · intro ev
    cases ev <;> simp [makeRequest]
  · intro ev r hr
    cases ev <;>
      (simp only [makeRequest, JsPromise.resolved.injEq] at hr; subst hr; rfl)
  · intro code body t r hr
    simp only [makeRequest, JsPromise.resolved.injEq] at hr
    subst hr
    simp
  · intro msg t r hr
    simp only [makeRequest, JsPromise.resolved.injEq] at hr
    subst hr
    rfl
  · intro ev
    cases ev <;> simp [executeQuery]
  · intro ev q hq
    cases ev <;>
      (simp only [executeQuery, JsPromise.resolved.injEq] at hq; subst hq; simp [DbEvent.isOk, DbEvent.elapsedMs])

/-- Witness for C1 at concrete inputs. -/
theorem c1_executors_capture_failures_witness :
    (makeRequest true (NetEvent.response 200 "ok" 5) ≠ JsPromise.rejected) ∧
    (RequestResult.success
        { statusCode := 200, data := "ok", responseTime := 5,
          success := true, error := none } = true ↔ 200 < 400) ∧
    (executeQuery (DbEvent.dbError "pool timeout" 7) ≠ JsPromise.rejected) :=
  ⟨c1_executors_capture_failures.1 (NetEvent.response 200 "ok" 5),
   c1_executors_capture_failures.2.2.1 200 "ok" 5 _ rfl,
   c1_executors_capture_failures.2.2.2.2.1 (DbEvent.dbError "pool timeout" 7)⟩

/-- C2 (code behaviour at the failing input): in `testEndpoint` every
request — including the later requests of the same user — is initiated
inside the synchronous promise-creation loop, before any request can
complete; the inter-request delay is awaited only after the promise has
already resolved and paces nothing.  Hence request `k` of any user starts
strictly before any completion in every possible event-loop trace,
contradicting the claimed per-actor sequencing. -/
theorem c2_requests_start_before_prior_completion
    (C M u k : Nat) (hu : u < C) (hk : k < M)
    (tr : EventLoopTrace C M) (u' k' : Nat) :
    startTick C M u k < tr.completionTick u' k' := by
  have hmem : (u, k) ∈ requestInitiations C M := by
    simp only [requestInitiations, List.mem_flatMap, List.mem_map, List.mem_range]
    exact ⟨u, hu, k, hk, rfl⟩
  have hlt : startTick C M u k < syncLoopTicks C M := by
    unfold startTick syncLoopTicks List.indexOf
    exact List.findIdx_lt_length_of_exists ⟨(u, k), hmem, by simp⟩
  exact lt_of_lt_of_le hlt (tr.completion_after_loop u' k')

/-- Witness for C2: with one user and two requests, the second request
starts (tick 1) before the earliest possible completion of the first
(tick 2). -/
theorem c2_requests_start_before_prior_completion_witness :
    startTick 1 2 0 1 < (promptTrace 1 2).completionTick 0 0 :=
  c2_requests_start_before_prior_completion 1 2 0 1 (by decide) (by decide)
    (promptTrace 1 2) 0 0

/-- C9: every `testEndpoint` batch satisfies
`successfulRequests + failedRequests = totalRequests`, and the running
summary accumulator preserves the same invariant across any sequence of
`testEndpoint` calls on one `LoadTester` instance. -/
theorem c9_success_failed_partition :
    (∀ (url : String) (C M : Nat) (results : List RequestResult) (t : ℚ),
      (testEndpoint url C M results t).successfulRequests
          + (testEndpoint url C M results t).failedRequests
        = (testEndpoint url C M results t).totalRequests) ∧
    (∀ batches : List (List RequestResult × ℚ),
      (runSummary batches).successfulRequests + (runSummary batches).failedRequests
        = (runSummary batches).totalRequests) := by
  constructor
  · intro url C M results t
    simp only [testEndpoint]
    exact length_filter_split results (fun r => r.success)
  · intro batches
    exact foldl_summary_invariant batches initialSummary rfl

/-- C3: for every non-empty latency list and rank up to 100, the analysis
sorts the latencies ascending (the result is a sorted permutation of the
input) and the percentile computation reads the element at the index
`ceil(p/100 * n) - 1` clamped to `[0, n-1]`; in particular, on the 100
uniform latencies 1..100 ms of Scenario 2, `p50 = 50` and `p99 = 99`. -/
theorem c3_percentile_ceil_index :
    (∀ (l : List ℚ) (p : ℚ), l ≠ [] → p ≤ 100 →
      percentile (sortAscending l) p
          = (sortAscending l).getD (specPercentileIndex l.length p) 0 ∧
      (sortAscending l).Sorted (· ≤ ·) ∧ (sortAscending l).Perm l) ∧
    (analyzePerformance scenario2Outcomes).p50 = 50 ∧
    (analyzePerformance scenario2Outcomes).p99 = 99 := by
  refine ⟨?_, ?_, ?_⟩
  · intro l p hne hp
    have hlenne : l.length ≠ 0 := by
      have := List.length_pos.mpr hne
      omega
    refine ⟨?_, sortAscending_sorted l, List.mergeSort_perm l _⟩
    rw [percentile_def]
    have hlen : (sortAscending l).length = l.length := by
      rw [sortAscending]
      exact List.length_mergeSort l
    rw [hlen, index_eq_specIndex l.length p hlenne hp]
  · show percentile (sortAscending (scenario2Outcomes.map (fun r => r.responseTime))) 50 = 50
    rw [scenario2_map, scenario2_sortAscending]
    exact scenario2_p50
  · show percentile (sortAscending (scenario2Outcomes.map (fun r => r.responseTime))) 99 = 99
    rw [scenario2_map, scenario2_sortAscending]
    exact scenario2_p99

/-- Witness for C3 at a concrete one-element list and rank 50. -/
theorem c3_percentile_ceil_index_witness :
    percentile (sortAscending [(5 : ℚ)]) 50
      = (sortAscending [(5 : ℚ)]).getD (specPercentileIndex [(5 : ℚ)].length 50) 0 :=
  (c3_percentile_ceil_index.1 [(5 : ℚ)] 50 (by simp) (by norm_num)).1

/-- C8: on any fixed non-empty outcome list the computed percentiles are
monotone in the rank: `p50 ≤ p90 ≤ p95 ≤ p99`. -/
theorem c8_percentile_monotone (detailed : List RequestResult) (h : detailed ≠ []) :
    (analyzePerformance detailed).p50 ≤ (analyzePerformance detailed).p90 ∧
    (analyzePerformance detailed).p90 ≤ (analyzePerformance detailed).p95 ∧
    (analyzePerformance detailed).p95 ≤ (analyzePerformance detailed).p99 := by
  have hne : sortAscending (detailed.map (fun r => r.responseTime)) ≠ [] := by
    intro hc
    apply h
    have hc' := congrArg List.length hc
    rw [sortAscending, List.length_mergeSort, List.length_map] at hc'
    simpa using List.length_eq_zero.mp hc'
  have hs : (sortAscending (detailed.map (fun r => r.responseTime))).Sorted (· ≤ ·) :=
    sortAscending_sorted _
  exact ⟨percentile_mono _ hs hne 50 90 (by norm_num) (by norm_num),
         percentile_mono _ hs hne 90 95 (by norm_num) (by norm_num),
         percentile_mono _ hs hne 95 99 (by norm_num) (by norm_num)⟩

/-- Witness for C8 at a concrete two-element batch. -/
theorem c8_percentile_monotone_witness :
    (analyzePerformance [sampleResult]).p50 ≤ (analyzePerformance [sampleResult]).p90 ∧
    (analyzePerformance [sampleResult]).p90 ≤ (analyzePerformance [sampleResult]).p95 ∧
    (analyzePerformance [sampleResult]).p95 ≤ (analyzePerformance [sampleResult]).p99 :=
  c8_percentile_monotone [sampleResult] (by simp)

/-- C4 (counterexample): on an empty batch (`totalRequests = 0`) the error
rate is not the claimed guarded 0 — the unguarded `0/0 * 100` yields
`NaN`. -/
theorem c4_empty_batch_error_rate_nan :
    (testEndpoint "u" 0 1 [] 5).errorRate = JsNum.nan ∧
    (testEndpoint "u" 0 1 [] 5).errorRate ≠ JsNum.fin 0 := by
  constructor
  · simp [testEndpoint, JsNum.div, JsNum.mul]
  · simp [testEndpoint, JsNum.div, JsNum.mul]

/-- C4 (amended): for every non-empty batch, the error rate equals
`100 * failedRequests / totalRequests`; on an empty batch the computation
is unguarded and produces `NaN`, not 0. -/
theorem c4_error_rate_formula (url : String) (C M : Nat)
    (results : List RequestResult) (t : ℚ) (h : results ≠ []) :
    (testEndpoint url C M results t).errorRate
      = JsNum.fin (100 * ((testEndpoint url C M results t).failedRequests : ℚ)
          / ((testEndpoint url C M results t).totalRequests : ℚ)) := by
  have hn : ((results.length : Nat) : ℚ) ≠ 0 := by
    have := List.length_pos.mpr h
    exact Nat.cast_ne_zero.mpr (by omega)
  simp only [testEndpoint, JsNum.div, JsNum.mul, if_neg hn]
  congr 1
  ring

/-- Witness for C4 at a concrete one-element batch. -/
theorem c4_error_rate_formula_witness :
    (testEndpoint "u" 1 1 [sampleResult] 5).errorRate
      = JsNum.fin (100 * ((testEndpoint "u" 1 1 [sampleResult] 5).failedRequests : ℚ)
          / ((testEndpoint "u" 1 1 [sampleResult] 5).totalRequests : ℚ)) :=
  c4_error_rate_formula "u" 1 1 [sampleResult] 5 (by simp)

/-- C5 (counterexample): the throughput division is not guarded — with a
non-empty batch and zero elapsed time, `requestsPerSecond` is
`Infinity`. -/
theorem c5_zero_elapsed_infinite_rps :
    (testEndpoint "u" 1 1 [sampleResult] 0).requestsPerSecond = JsNum.posInf := by
  simp [testEndpoint, JsNum.div]

/-- C5 (amended): throughput is computed as
`totalRequests / (elapsedMs / 1000)`; there is no zero-guard, so the
stated formula holds whenever the elapsed time is non-zero, while at zero
elapsed time the value is `Infinity` (non-empty batch) or `NaN` (empty
batch). -/
theorem c5_rps_formula (url : String) (C M : Nat)
    (results : List RequestResult) (t : ℚ) (h : t ≠ 0) :
    (testEndpoint url C M results t).requestsPerSecond
      = JsNum.fin ((results.length : ℚ) / (t / 1000)) := by
  have h1000 : t / 1000 ≠ 0 := by
    simp [div_eq_zero_iff, h]
  simp [testEndpoint, JsNum.div, h1000]

/-- Witness for C5 at a concrete batch with 5 ms elapsed. -/
theorem c5_rps_formula_witness :
    (testEndpoint "u" 1 1 [sampleResult] 5).requestsPerSecond
      = JsNum.fin (([sampleResult].length : ℚ) / (5 / 1000)) :=
  c5_rps_formula "u" 1 1 [sampleResult] 5 (by norm_num)

/-- C10: every non-empty `testEndpoint` batch has a finite, internally
consistent latency summary: `minResponseTime ≤ avgResponseTime ≤
maxResponseTime`. -/
theorem c10_latency_summary_consistent (url : String) (C M : Nat)
    (results : List RequestResult) (t : ℚ) (h : results ≠ []) :
    ∃ mn av mx : ℚ,
      (testEndpoint url C M results t).minResponseTime = JsNum.fin mn ∧
      (testEndpoint url C M results t).avgResponseTime = JsNum.fin av ∧
      (testEndpoint url C M results t).maxResponseTime = JsNum.fin mx ∧
      mn ≤ av ∧ av ≤ mx := by
  have hmapne : results.map (fun r => r.responseTime) ≠ [] :=
    fun hc => h (List.map_eq_nil_iff.mp hc)
  obtain ⟨x, xs, hx⟩ := List.exists_cons_of_ne_nil hmapne
  have hlen : ((xs.length : ℚ) + 1) ≠ 0 := by positivity
  refine ⟨xs.foldl min x, (x :: xs).sum / (((x :: xs).length : Nat) : ℚ), xs.foldl max x,
    ?_, ?_, ?_, (min_le_avg_le_max x xs).1, (min_le_avg_le_max x xs).2⟩
  · simp only [testEndpoint, hx, listMinQ]
  · simp only [testEndpoint, hx]
    simp [JsNum.div, hlen]
  · simp only [testEndpoint, hx, listMaxQ]

/-- Witness for C10 at a concrete one-element batch. -/
theorem c10_latency_summary_consistent_witness :
    ∃ mn av mx : ℚ,
      (testEndpoint "u" 1 1 [sampleResult] 5).minResponseTime = JsNum.fin mn ∧
      (testEndpoint "u" 1 1 [sampleResult] 5).avgResponseTime = JsNum.fin av ∧
      (testEndpoint "u" 1 1 [sampleResult] 5).maxResponseTime = JsNum.fin mx ∧
      mn ≤ av ∧ av ≤ mx :=
  c10_latency_summary_consistent "u" 1 1 [sampleResult] 5 (by simp)

/-- C6 (counterexample): a batch with 2% errors and 1500 ms average
latency but zero latency variance scores 50, not at most 30 — only the
error-rate (−20) and latency (−30) penalties apply. -/
theorem c6_two_percent_errors_scores_fifty :
    calculateStabilityScore (mkStatsResult 2 1500 1500 1500) = 50 ∧
    ¬ calculateStabilityScore (mkStatsResult 2 1500 1500 1500) ≤ 30 := by
  have h50 : calculateStabilityScore (mkStatsResult 2 1500 1500 1500) = 50 := by
    simp [calculateStabilityScore, mkStatsResult, JsNum.lt, JsNum.sub]
    norm_num
  refine ⟨h50, ?_⟩
  rw [h50]
  norm_num

/-- C6 (amended): on finite statistics the stability score is exactly the
specification's deduction formula (start at 100; −20 for error rate > 1%
else −10 for > 0.1%; −30 for average latency > 1000 ms else −15 for
> 500 ms else −5 for > 200 ms; −20 for max−min variance > 3000 ms else
−10 for > 1000 ms; floored at 0); a batch with 0% errors, 100 ms average
latency and 50 ms variance scores 100 and is judged stable (score > 80);
a batch with 2% errors and 1500 ms average latency scores at most 50. -/
theorem c6_stability_score_formula :
    (∀ (r : EndpointResult) (e a mx mn : ℚ),
      r.errorRate = JsNum.fin e → r.avgResponseTime = JsNum.fin a →
      r.maxResponseTime = JsNum.fin mx → r.minResponseTime = JsNum.fin mn →
      calculateStabilityScore r = specStabilityScore e a (mx - mn)) ∧
    (calculateStabilityScore (mkStatsResult 0 100 125 75) = 100 ∧
      systemStable (calculateStabilityScore (mkStatsResult 0 100 125 75)) = true) ∧
    (∀ mx mn : ℚ, calculateStabilityScore (mkStatsResult 2 1500 mx mn) ≤ 50) := by
  refine ⟨?_, ⟨?_, ?_⟩, ?_⟩
  · intro r e a mx mn he ha hmx hmn
    simp only [calculateStabilityScore, specStabilityScore, he, ha, hmx, hmn,
      JsNum.lt, JsNum.sub, decide_eq_true_eq]
    split_ifs <;> (congr 1 <;> ring)
  · simp [calculateStabilityScore, mkStatsResult, JsNum.lt, JsNum.sub]
    norm_num
  · have h100 : calculateStabilityScore (mkStatsResult 0 100 125 75) = 100 := by
      simp [calculateStabilityScore, mkStatsResult, JsNum.lt, JsNum.sub]
      norm_num
    rw [h100]
    simp [systemStable]
    norm_num
  · intro mx mn
    simp only [calculateStabilityScore, mkStatsResult, JsNum.lt, JsNum.sub,
      decide_eq_true_eq]
    split_ifs <;> norm_num at *

/-- Witness for C6: the formula theorem applied at the concrete
100-scoring batch. -/
theorem c6_stability_score_formula_witness :
    calculateStabilityScore (mkStatsResult 0 100 125 75)
      = specStabilityScore 0 100 (125 - 75) :=
  c6_stability_score_formula.1 (mkStatsResult 0 100 125 75) 0 100 125 75
    rfl rfl rfl rfl

/-- C7: the spike test passes exactly when the post-spike error rate is
below 5% and the post-spike average latency is below three times the
baseline average; `spikeMultiplier` and `degradationRatio` are recorded
regardless of pass or fail; with `baseUsers = 10`, `spikeUsers = 200` and
a spike response time four times the baseline, `passed = false` and the
multiplier is 20. -/
theorem c7_spike_test_pass_criteria :
    (∀ (baseUsers spikeUsers : ℚ) (bRes sRes : EndpointResult) (e sa ba : ℚ),
      sRes.errorRate = JsNum.fin e → sRes.avgResponseTime = JsNum.fin sa →
      bRes.avgResponseTime = JsNum.fin ba →
      ((runSpikeTest baseUsers spikeUsers bRes sRes).passed = true ↔
        (e < 5 ∧ sa < ba * 3)) ∧
      (baseUsers ≠ 0 →
        (runSpikeTest baseUsers spikeUsers bRes sRes).spikeMultiplier
          = JsNum.fin (spikeUsers / baseUsers)) ∧
      (ba ≠ 0 →
        (runSpikeTest baseUsers spikeUsers bRes sRes).degradationRatio
          = JsNum.fin (sa / ba))) ∧
    (∀ (ba e1 e2 : ℚ), 0 < ba →
      (runSpikeTest 10 200 (mkStatsResult e1 ba 0 0) (mkStatsResult e2 (4 * ba) 0 0)).passed
          = false ∧
      (runSpikeTest 10 200 (mkStatsResult e1 ba 0 0)
          (mkStatsResult e2 (4 * ba) 0 0)).spikeMultiplier
        = JsNum.fin 20) := by
  constructor
  · intro baseUsers spikeUsers bRes sRes e sa ba he hsa hba
    refine ⟨?_, ?_, ?_⟩
    · simp [runSpikeTest, he, hsa, hba, JsNum.lt, JsNum.mul, Bool.and_eq_true,
        decide_eq_true_eq]
    · intro hb
      simp [runSpikeTest, JsNum.div, hb]
    · intro hb
      simp [runSpikeTest, hsa, hba, JsNum.div, hb]
  · intro ba e1 e2 hba
    constructor
    · have hlt : ¬ (4 * ba < ba * 3) := by nlinarith
      simp [runSpikeTest, mkStatsResult, JsNum.lt, JsNum.mul, hlt]
    · have h10 : (10 : ℚ) ≠ 0 := by norm_num
      simp [runSpikeTest, mkStatsResult, JsNum.div, h10]
      norm_num

/-- Witness for C7 applying both parts at concrete inputs. -/
theorem c7_spike_test_pass_criteria_witness :
    ((runSpikeTest 10 200 (mkStatsResult 0 1 0 0) (mkStatsResult 0 (4 * 1) 0 0)).passed
        = true ↔ ((0 : ℚ) < 5 ∧ (4 * 1 : ℚ) < 1 * 3)) ∧
    ((runSpikeTest 10 200 (mkStatsResult 0 1 0 0) (mkStatsResult 0 (4 * 1) 0 0)).passed
        = false) ∧
    ((runSpikeTest 10 200 (mkStatsResult 0 1 0 0)
        (mkStatsResult 0 (4 * 1) 0 0)).spikeMultiplier = JsNum.fin 20) :=
  ⟨(c7_spike_test_pass_criteria.1 10 200 (mkStatsResult 0 1 0 0)
      (mkStatsResult 0 (4 * 1) 0 0) 0 (4 * 1) 1 rfl rfl rfl).1,
   (c7_spike_test_pass_criteria.2 1 0 0 (by norm_num)).1,
   (c7_spike_test_pass_criteria.2 1 0 0 (by norm_num)).2⟩

end INR100
